import Mathlib

/-!
Verification of the aider orchestration script.

A shallow embedding of `aider_script.py` (class `AiderOrchestrator`).

The script is a sequential orchestration loop over external effects
(filesystem reads, git head lookups, delegation to an external coding
engine).  We embed it by making every external observation an explicit
input:

* `Orch` mirrors the fields stored by `__init__`;
* `World` is one observation of the ambient state consulted by
  `is_complete` (chat-history file content and current head commit hash);
* `Env` is the oracle of all external behaviour a single `run()` consumes:
  prompt-file contents, the user config file, a world per completion
  check, and flags saying which external calls raise exceptions;
* `run` returns a `RunOut` trace: how the process ended, how many
  architect/code sessions were created, the final stored hash and the
  emitted messages.

Python truthiness (`if not requirements:`) and substring search
(`self.stop_token in f.read()`) are embedded directly (`pyFalsy`,
`strContains`).
-/

namespace AiderScript

/-- A YAML scalar value, enough for the configuration dictionaries. -/
inductive YVal where
  | bool (b : Bool)
  | str (s : String)
  | int (n : Int)
deriving DecidableEq

/-- A Python dictionary with string keys, by its lookup function. -/
def PyDict := String → Option YVal

/-- `self.base_config` as assigned in `__init__` (lines 33-41). -/
def base_config : PyDict := fun k =>
  match k with
  | "analytics_disable" => some (.bool true)
  | "auto_commits" => some (.bool true)
  | "auto_lint" => some (.bool true)
  | "auto_test" => some (.bool false)
  | "check_update" => some (.bool false)
  | "stream" => some (.bool false)
  | "yes_always" => some (.bool true)
  | _ => none

/-- The relative read-only context paths listed in `__init__` (lines 44-50). -/
def read_files_rel : List String :=
  ["CONVENTIONS.md", "packages/prompts/CONVENTIONS.md",
   "packages/prompts/README.md", "README.md", "TESTING.md"]

/-- The state stored on `self` by `AiderOrchestrator.__init__`
(`base_config` is a constant and is kept as a top-level definition). -/
structure Orch where
  requirements_file : String
  continuation_prompt_file : String
  commit_prompt_file : String
  max_iterations : Nat
  stop_token : String
  previous_hash : String
  read_files : List String
deriving DecidableEq

/-- `AiderOrchestrator.__init__` (lines 16-51): stores the five parameters,
captures the repository head hash into `previous_hash`, and resolves the
read-only file list against the repository working tree root. -/
def initOrch (requirements_file continuation_prompt_file commit_prompt_file : String)
    (max_iterations : Nat) (stop_token : String)
    (working_tree_dir : String) (head_hexsha : String) : Orch :=
  { requirements_file := requirements_file
    continuation_prompt_file := continuation_prompt_file
    commit_prompt_file := commit_prompt_file
    max_iterations := max_iterations
    stop_token := stop_token
    previous_hash := head_hexsha
    read_files := read_files_rel.map (fun f => working_tree_dir ++ "/" ++ f) }

/-- Python `needle in hay` on strings: `needle` occurs as a contiguous
substring of `hay` (the empty needle always occurs). -/
def strContains (hay needle : String) : Bool :=
  (List.range (hay.data.length + 1)).any
    (fun i => needle.data.isPrefixOf (hay.data.drop i))

/-- Python truthiness of an `Optional[str]`: `not x` is true exactly when
`x` is `None` or the empty string. -/
def pyFalsy : Option String → Bool
  | none => true
  | some s => s.isEmpty

/-- One observation of the ambient state consulted by `is_complete`:
the content of `.aider.chat.history.md` (`none` when the file does not
exist) and the current head commit hash. -/
structure World where
  historyContent : Option String
  headHash : String
deriving DecidableEq

/-- The first condition of `is_complete` (lines 64-68): the history file
exists and its full text contains the stop token as a substring. -/
def tokenPresent (w : World) (tok : String) : Bool :=
  match w.historyContent with
  | some content => strContains content tok
  | none => false

/-- The messages the script prints, one constructor per `print` call. -/
inductive Msg where
  | warnPromptNotFound (path : String)
  | notModified
  | startingIteration (n : Nat)
  | errorDuringIteration (n : Nat)
deriving DecidableEq

/-- `AiderOrchestrator.is_complete` (lines 62-76): returns the boolean
result, the updated orchestrator state and the printed messages. -/
def is_complete (o : Orch) (w : World) : Bool × Orch × List Msg :=
  if tokenPresent w o.stop_token then
    (true, o, [])
  else if w.headHash = o.previous_hash then
    (true, o, [Msg.notModified])
  else
    (false, { o with previous_hash := w.headHash }, [])

/-- `AiderOrchestrator.read_prompt_file` (lines 78-85): the file content
when the file exists, otherwise `none` together with the warning print. -/
def read_prompt_file (file_path : String) (content : Option String) :
    Option String × List Msg :=
  match content with
  | some text => (some text, [])
  | none => (none, [Msg.warnPromptNotFound file_path])

/-- `AiderOrchestrator.load_config` (lines 53-60).  `configFileExists`
says whether `~/.aider.conf.yml` exists; `parsed` is the successful
`yaml.safe_load` result (`none` models YAML returning `None`, handled by
`user_config or {}`).  The merge `{**base, **user}` is shallow: the user
value wins wherever the user dict has the key. -/
def load_config (configFileExists : Bool) (parsed : Option PyDict) : PyDict :=
  if configFileExists then
    let user_config : PyDict := parsed.getD (fun _ => none)
    fun k =>
      match user_config k with
      | some v => some v
      | none => base_config k
  else base_config

/-- The session object built by `create_coder` (lines 87-112): the model,
the read-only file list, the behaviour flags read from the merged
configuration, and the chat mode. -/
structure Session where
  main_model : String
  read_only_fnames : List String
  auto_commits : Option YVal
  auto_lint : Option YVal
  auto_test : Option YVal
  stream : Option YVal
  chat_mode : String
deriving DecidableEq

/-- `AiderOrchestrator.create_coder` (lines 87-112): loads the merged
configuration and builds the session record. -/
def create_coder (o : Orch) (configFileExists : Bool) (parsed : Option PyDict)
    (chat_mode : String) : Session :=
  let config := load_config configFileExists parsed
  { main_model := "gpt-4-turbo"
    read_only_fnames := o.read_files
    auto_commits := config "auto_commits"
    auto_lint := config "auto_lint"
    auto_test := config "auto_test"
    stream := config "stream"
    chat_mode := chat_mode }

/-- How a call to `run()` ends.  `exitMissingRequirements` and
`exitMissingContinuation` are the two `sys.exit(1)` calls on falsy prompt
content (lines 119 and 127); `uncaughtError` is an exception escaping the
architect phase, which has no handler (`isParseError` marks a YAML parse
error from `load_config`); `exitIter` is the per-iteration handler (lines
140-142): exception caught, diagnostic printed, `sys.exit(1)`; `normal`
is ordinary return from `run()`. -/
inductive RunResult where
  | exitMissingRequirements
  | exitMissingContinuation
  | uncaughtError (isParseError : Bool)
  | exitIter (iteration : Nat) (isParseError : Bool)
  | normal
deriving DecidableEq

/-- The oracle of external behaviour consumed by one `run()` call:
prompt-file contents, config-file state, the world observed at the k-th
completion check (0-based), and which external calls raise.
`loopParseError k` means `load_config` raises inside `create_coder` on
loop pass `k` (before the session exists); `loopRunRaises k` means
`coder.run` raises on pass `k` (after the session was created). -/
structure Env where
  reqContent : Option String
  contContent : Option String
  configFileExists : Bool
  parsedConfig : Option PyDict
  archParseError : Bool
  archRunRaises : Bool
  loopParseError : Nat → Bool
  loopRunRaises : Nat → Bool
  worlds : Nat → World

/-- Outcome of the implementation loop. -/
structure LoopOut where
  result : RunResult
  codeSessions : Nat
  finalPrev : String
  msgs : List Msg
deriving DecidableEq

/-- Trace of one `run()` call. -/
structure RunOut where
  result : RunResult
  archSessions : Nat
  codeSessions : Nat
  finalPrev : String
  msgs : List Msg
deriving DecidableEq

/-- The `while iteration < self.max_iterations` loop of `run` (lines
129-142).  `k` is the 0-based pass index (the printed iteration number is
`k + 1`), `remaining = max_iterations - k` passes may still start, `o`
carries `previous_hash`, `count` counts code sessions created so far. -/
def runLoop (env : Env) : Nat → Nat → Orch → Nat → List Msg → LoopOut
  | _, 0, o, count, msgs =>
    { result := .normal, codeSessions := count, finalPrev := o.previous_hash, msgs := msgs }
  | k, r + 1, o, count, msgs =>
    let res := is_complete o (env.worlds k)
    let o' := res.2.1
    let msgs1 := msgs ++ res.2.2
    if res.1 then
      { result := .normal, codeSessions := count,
        finalPrev := o'.previous_hash, msgs := msgs1 }
    else
      let msgs2 := msgs1 ++ [Msg.startingIteration (k + 1)]
      if env.loopParseError k then
        { result := .exitIter (k + 1) true, codeSessions := count,
          finalPrev := o'.previous_hash,
          msgs := msgs2 ++ [Msg.errorDuringIteration (k + 1)] }
      else if env.loopRunRaises k then
        { result := .exitIter (k + 1) false, codeSessions := count + 1,
          finalPrev := o'.previous_hash,
          msgs := msgs2 ++ [Msg.errorDuringIteration (k + 1)] }
      else
        runLoop env (k + 1) r o' (count + 1) msgs2

/-- `AiderOrchestrator.run` (lines 114-142). -/
def run (o : Orch) (env : Env) : RunOut :=
  let req := read_prompt_file o.requirements_file env.reqContent
  if pyFalsy req.1 then
    { result := .exitMissingRequirements, archSessions := 0, codeSessions := 0,
      finalPrev := o.previous_hash, msgs := req.2 }
  else if env.archParseError then
    { result := .uncaughtError true, archSessions := 0, codeSessions := 0,
      finalPrev := o.previous_hash, msgs := req.2 }
  else if env.archRunRaises then
    { result := .uncaughtError false, archSessions := 1, codeSessions := 0,
      finalPrev := o.previous_hash, msgs := req.2 }
  else
    let cont := read_prompt_file o.continuation_prompt_file env.contContent
    if pyFalsy cont.1 then
      { result := .exitMissingContinuation, archSessions := 1, codeSessions := 0,
        finalPrev := o.previous_hash, msgs := req.2 ++ cont.2 }
    else
      let lo := runLoop env 0 o.max_iterations o 0 []
      { result := lo.result, archSessions := 1, codeSessions := lo.codeSessions,
        finalPrev := lo.finalPrev, msgs := req.2 ++ cont.2 ++ lo.msgs }

/-! Concrete example inputs used by witnesses and counterexamples. -/

/-- An orchestrator as built by `__init__` with the `main()` defaults. -/
def oEx : Orch :=
  initOrch "requirements.txt" "continuation.txt" "commit_prompt.txt" 10 "DONE" "/repo" "h0"

/-- A world whose history file contains the stop token. -/
def wTok : World := { historyContent := some "...DONE...", headHash := "h9" }

/-- A world with no history file and the same head hash as `oEx`. -/
def wSame : World := { historyContent := none, headHash := "h0" }

/-- A world with no history file and a fresh head hash. -/
def wDiff : World := { historyContent := none, headHash := "h1" }

/-- A user override dictionary setting only `auto_lint`. -/
def mEx : PyDict := fun k => if k = "auto_lint" then some (.bool false) else none

/-- An environment where every external call behaves: prompts exist and are
non-empty, nothing raises, no stop token ever appears, and the head hash
changes before every completion check. -/
def envOk : Env :=
  { reqContent := some "build it"
    contContent := some "continue"
    configFileExists := false
    parsedConfig := none
    archParseError := false
    archRunRaises := false
    loopParseError := fun _ => false
    loopRunRaises := fun _ => false
    worlds := fun k =>
      { historyContent := none
        headHash := match k with | 0 => "a" | 1 => "b" | 2 => "c" | 3 => "d" | _ => "e" } }

/-! Theorems for the claims. -/

/-- C2: whenever the chat-history file exists and its full text contains
the configured stop token as a substring, `is_complete` returns `true`
with the stored `previous_hash` unchanged and nothing printed, for every
head-hash state: the commit comparison is short-circuited. -/
theorem is_complete_token_short_circuits (o : Orch) (w : World) (c : String)
    (hc : w.historyContent = some c)
    (htok : strContains c o.stop_token = true) :
    is_complete o w = (true, o, []) := by
  simp [is_complete, tokenPresent, hc, htok]

theorem is_complete_token_short_circuits_witness :
    is_complete oEx wTok = (true, oEx, []) :=
  is_complete_token_short_circuits oEx wTok "...DONE..." rfl (by decide)

/-- C3: when no stop token is present (no history file, or its content
does not contain the token), `is_complete` returns `true` if the current
head hash equals the stored previous hash, and returns `false` after
updating the stored previous hash when they differ. -/
theorem is_complete_hash_comparison (o : Orch) (w : World)
    (htok : tokenPresent w o.stop_token = false) :
    (w.headHash = o.previous_hash →
      is_complete o w = (true, o, [Msg.notModified])) ∧
    (w.headHash ≠ o.previous_hash →
      is_complete o w = (false, { o with previous_hash := w.headHash }, [])) := by
  constructor <;> intro h <;> simp [is_complete, htok, h]

theorem is_complete_hash_comparison_witness :
    is_complete oEx wSame = (true, oEx, [Msg.notModified]) ∧
    is_complete oEx wDiff = (false, { oEx with previous_hash := "h1" }, []) :=
  ⟨(is_complete_hash_comparison oEx wSame (by decide)).1 rfl,
   (is_complete_hash_comparison oEx wDiff (by decide)).2 (by decide)⟩

/-- C4: with the override file present and parsed to a mapping `M`,
`load_config` returns `M`'s value on every key `M` defines and the
built-in default on every key `M` omits (a one-level merge); with the
override file absent it returns the built-in defaults unchanged. -/
theorem load_config_shallow_merge (M : PyDict) (k : String) :
    (∀ v, M k = some v → load_config true (some M) k = some v) ∧
    (M k = none → load_config true (some M) k = base_config k) ∧
    (∀ p : Option PyDict, load_config false p k = base_config k) := by
  refine ⟨fun v hv => ?_, fun hn => ?_, fun p => ?_⟩ <;>
    simp [load_config, Option.getD]
  · rw [hv]
  · rw [hn]

theorem load_config_shallow_merge_witness :
    load_config true (some mEx) "auto_lint" = some (YVal.bool false) ∧
    load_config true (some mEx) "stream" = base_config "stream" ∧
    load_config false none "stream" = base_config "stream" :=
  ⟨(load_config_shallow_merge mEx "auto_lint").1 (YVal.bool false) (by decide),
   (load_config_shallow_merge mEx "stream").2.1 (by decide),
   (load_config_shallow_merge mEx "stream").2.2 none⟩

/-- C6: when the requirements file does not exist, `run` terminates with
exit status 1 before any session is created: no architect session, no
code session, and the only output is the warning `read_prompt_file`
prints for the missing path. -/
theorem run_missing_requirements (o : Orch) (env : Env)
    (h : env.reqContent = none) :
    run o env =
      { result := .exitMissingRequirements, archSessions := 0, codeSessions := 0,
        finalPrev := o.previous_hash,
        msgs := [Msg.warnPromptNotFound o.requirements_file] } := by
  simp [run, read_prompt_file, h, pyFalsy]

theorem run_missing_requirements_witness :
    run oEx { envOk with reqContent := none } =
      { result := .exitMissingRequirements, archSessions := 0, codeSessions := 0,
        finalPrev := "h0",
        msgs := [Msg.warnPromptNotFound "requirements.txt"] } :=
  run_missing_requirements oEx { envOk with reqContent := none } rfl

/-- C10: a prompt file that exists with empty content is treated like a
missing one: `read_prompt_file` returns the empty string, truthiness
testing treats it as missing, and `run` exits with status 1 — before any
session when the requirements file is empty, and before any loop
iteration when the continuation-prompt file is empty. -/
theorem run_empty_prompt_files (o : Orch) (env : Env) :
    (env.reqContent = some "" →
      read_prompt_file o.requirements_file env.reqContent = (some "", []) ∧
      (run o env).result = .exitMissingRequirements ∧
      (run o env).archSessions = 0 ∧ (run o env).codeSessions = 0) ∧
    (env.contContent = some "" → pyFalsy env.reqContent = false →
      env.archParseError = false → env.archRunRaises = false →
      read_prompt_file o.continuation_prompt_file env.contContent = (some "", []) ∧
      (run o env).result = .exitMissingContinuation ∧
      (run o env).codeSessions = 0) := by
  have hemp : ("" : String).isEmpty = true := rfl
  constructor
  · intro h
    refine ⟨by simp [read_prompt_file, h], ?_⟩
    simp [run, read_prompt_file, h, pyFalsy, hemp]
  · intro hc hr hape harr
    match hre : env.reqContent with
    | none => rw [hre] at hr; simp [pyFalsy] at hr
    | some s =>
      rw [hre] at hr
      simp only [pyFalsy] at hr
      refine ⟨by simp [read_prompt_file, hc], ?_⟩
      simp [run, read_prompt_file, hre, hc, pyFalsy, hape, harr, hr, hemp]

theorem run_empty_prompt_files_witness :
    ((run oEx { envOk with reqContent := some "" }).result =
        .exitMissingRequirements ∧
      (run oEx { envOk with reqContent := some "" }).archSessions = 0) ∧
    (run oEx { envOk with contContent := some "" }).result =
        .exitMissingContinuation :=
  ⟨⟨((run_empty_prompt_files oEx { envOk with reqContent := some "" }).1 rfl).2.1,
    ((run_empty_prompt_files oEx { envOk with reqContent := some "" }).1 rfl).2.2.1⟩,
   ((run_empty_prompt_files oEx { envOk with contContent := some "" }).2 rfl
      (by decide) rfl rfl).2.1⟩

/-- `oEx` with `max_iterations = 3`. -/
def oEx3 : Orch := { oEx with max_iterations := 3 }

/-- `oEx` with `max_iterations = 5`. -/
def oEx5 : Orch := { oEx with max_iterations := 5 }

/-- C1: with `max_iterations = 3`, prompts present, nothing raising, no
stop token at any check and the head hash changing before every check
(`is_complete` false throughout), the loop creates and runs exactly 3
code sessions and `run` returns normally. -/
theorem run_exactly_three_iterations (o : Orch) (env : Env)
    (hmax : o.max_iterations = 3)
    (hreq : pyFalsy env.reqContent = false)
    (hape : env.archParseError = false)
    (harr : env.archRunRaises = false)
    (hcont : pyFalsy env.contContent = false)
    (ht0 : tokenPresent (env.worlds 0) o.stop_token = false)
    (ht1 : tokenPresent (env.worlds 1) o.stop_token = false)
    (ht2 : tokenPresent (env.worlds 2) o.stop_token = false)
    (hh0 : (env.worlds 0).headHash ≠ o.previous_hash)
    (hh1 : (env.worlds 1).headHash ≠ (env.worlds 0).headHash)
    (hh2 : (env.worlds 2).headHash ≠ (env.worlds 1).headHash)
    (hp0 : env.loopParseError 0 = false)
    (hp1 : env.loopParseError 1 = false)
    (hp2 : env.loopParseError 2 = false)
    (hr0 : env.loopRunRaises 0 = false)
    (hr1 : env.loopRunRaises 1 = false)
    (hr2 : env.loopRunRaises 2 = false) :
    (run o env).result = RunResult.normal ∧ (run o env).codeSessions = 3 := by
  obtain ⟨rs, hrs, hrse⟩ : ∃ s, env.reqContent = some s ∧ s.isEmpty = false := by
    cases h : env.reqContent with
    | none => rw [h] at hreq; simp [pyFalsy] at hreq
    | some s => rw [h] at hreq; exact ⟨s, rfl, hreq⟩
  obtain ⟨cs, hcs, hcse⟩ : ∃ s, env.contContent = some s ∧ s.isEmpty = false := by
    cases h : env.contContent with
    | none => rw [h] at hcont; simp [pyFalsy] at hcont
    | some s => rw [h] at hcont; exact ⟨s, rfl, hcont⟩
  simp [run, read_prompt_file, hrs, hcs, pyFalsy, hrse, hcse, hape, harr, hmax,
    runLoop, is_complete, ht0, ht1, ht2, hh0, hh1, hh2, hp0, hp1, hp2, hr0, hr1, hr2]

theorem run_exactly_three_iterations_witness :
    (run oEx3 envOk).result = RunResult.normal ∧ (run oEx3 envOk).codeSessions = 3 :=
  run_exactly_three_iterations oEx3 envOk rfl (by decide) rfl rfl (by decide)
    (by decide) (by decide) (by decide) (by decide) (by decide) (by decide)
    rfl rfl rfl rfl rfl rfl

/-- C7: with `max_iterations ≥ 1`, prompts present and the architect
phase clean, if the chat-history file already contains the stop token at
the first completion check, the loop performs zero code delegations and
`run` returns normally. -/
theorem run_token_already_present (o : Orch) (env : Env)
    (hmax : 1 ≤ o.max_iterations)
    (hreq : pyFalsy env.reqContent = false)
    (hape : env.archParseError = false)
    (harr : env.archRunRaises = false)
    (hcont : pyFalsy env.contContent = false)
    (htok : tokenPresent (env.worlds 0) o.stop_token = true) :
    (run o env).result = RunResult.normal ∧ (run o env).codeSessions = 0 := by
  obtain ⟨rs, hrs, hrse⟩ : ∃ s, env.reqContent = some s ∧ s.isEmpty = false := by
    cases h : env.reqContent with
    | none => rw [h] at hreq; simp [pyFalsy] at hreq
    | some s => rw [h] at hreq; exact ⟨s, rfl, hreq⟩
  obtain ⟨cs, hcs, hcse⟩ : ∃ s, env.contContent = some s ∧ s.isEmpty = false := by
    cases h : env.contContent with
    | none => rw [h] at hcont; simp [pyFalsy] at hcont
    | some s => rw [h] at hcont; exact ⟨s, rfl, hcont⟩
  obtain ⟨m, hm⟩ : ∃ m, o.max_iterations = m + 1 := ⟨o.max_iterations - 1, by omega⟩
  simp [run, read_prompt_file, hrs, hcs, pyFalsy, hrse, hcse, hape, harr, hm,
    runLoop, is_complete, htok]

theorem run_token_already_present_witness :
    (run oEx { envOk with worlds := fun _ => wTok }).result = RunResult.normal ∧
    (run oEx { envOk with worlds := fun _ => wTok }).codeSessions = 0 :=
  run_token_already_present oEx { envOk with worlds := fun _ => wTok }
    (by decide) (by decide) rfl rfl (by decide) (by decide)

/-- An environment like `envOk` except that the delegated `coder.run`
call raises on the second loop pass (printed iteration 2). -/
def envRaise2 : Env := { envOk with loopRunRaises := fun k => decide (k = 1) }

/-- C5: a raising delegation aborts the run with exit status 1 and no
retry.  First conjunct (any run): whenever a loop pass `k` is reached,
its completion check is false and `coder.run` raises there, the loop ends
at once in the per-iteration handler: `exitIter (k+1)`, one more code
session than before, and the diagnostic as the final message.  Second
conjunct: in a `max_iterations = 5` run whose delegation raises on
iteration 2 (and behaves on iteration 1), `run` ends in `exitIter 2`
having created exactly 2 code sessions. -/
theorem run_delegation_raise_aborts (o : Orch) (env : Env)
    (hmax : o.max_iterations = 5)
    (hreq : pyFalsy env.reqContent = false)
    (hape : env.archParseError = false)
    (harr : env.archRunRaises = false)
    (hcont : pyFalsy env.contContent = false)
    (ht0 : tokenPresent (env.worlds 0) o.stop_token = false)
    (ht1 : tokenPresent (env.worlds 1) o.stop_token = false)
    (hh0 : (env.worlds 0).headHash ≠ o.previous_hash)
    (hh1 : (env.worlds 1).headHash ≠ (env.worlds 0).headHash)
    (hp0 : env.loopParseError 0 = false)
    (hp1 : env.loopParseError 1 = false)
    (hr0 : env.loopRunRaises 0 = false)
    (hr1 : env.loopRunRaises 1 = true) :
    (∀ (env2 : Env) (k r count : Nat) (o' : Orch) (msgs : List Msg),
      (is_complete o' (env2.worlds k)).1 = false →
      env2.loopParseError k = false →
      env2.loopRunRaises k = true →
      (runLoop env2 k (r + 1) o' count msgs).result = RunResult.exitIter (k + 1) false ∧
      (runLoop env2 k (r + 1) o' count msgs).codeSessions = count + 1 ∧
      (runLoop env2 k (r + 1) o' count msgs).msgs =
        msgs ++ (is_complete o' (env2.worlds k)).2.2 ++
          [Msg.startingIteration (k + 1), Msg.errorDuringIteration (k + 1)]) ∧
    ((run o env).result = RunResult.exitIter 2 false ∧ (run o env).codeSessions = 2) := by
  constructor
  · intro env2 k r count o' msgs hic hpe hrr
    simp [runLoop, hic, hpe, hrr]
  · obtain ⟨rs, hrs, hrse⟩ : ∃ s, env.reqContent = some s ∧ s.isEmpty = false := by
      cases h : env.reqContent with
      | none => rw [h] at hreq; simp [pyFalsy] at hreq
      | some s => rw [h] at hreq; exact ⟨s, rfl, hreq⟩
    obtain ⟨cs, hcs, hcse⟩ : ∃ s, env.contContent = some s ∧ s.isEmpty = false := by
      cases h : env.contContent with
      | none => rw [h] at hcont; simp [pyFalsy] at hcont
      | some s => rw [h] at hcont; exact ⟨s, rfl, hcont⟩
    simp [run, read_prompt_file, hrs, hcs, pyFalsy, hrse, hcse, hape, harr, hmax,
      runLoop, is_complete, ht0, ht1, hh0, hh1, hp0, hp1, hr0, hr1]

theorem run_delegation_raise_aborts_witness :
    (run oEx5 envRaise2).result = RunResult.exitIter 2 false ∧
    (run oEx5 envRaise2).codeSessions = 2 :=
  (run_delegation_raise_aborts oEx5 envRaise2 rfl (by decide) rfl rfl (by decide)
    (by decide) (by decide) (by decide) (by decide) rfl rfl rfl rfl).2

/-- An environment like `envOk` except that `load_config` raises a YAML
parse error inside `create_coder` on the first loop pass. -/
def envParse1 : Env := { envOk with loopParseError := fun k => decide (k = 0) }

/-- C8 counterexample: the claim says a config-file parse error is never
locally caught by the orchestrator.  But `create_coder` — and with it
`load_config` — is called inside the loop's `try` block (line 138), whose
`except Exception` handler catches every exception.  In the run below a
parse error occurs on loop pass 0 and the run ends in `exitIter 1 true`,
the caught-by-the-per-iteration-handler outcome, not in
`uncaughtError true`, the propagates-unhandled outcome the claim
requires on every path. -/
theorem load_config_parse_error_caught_cex :
    envParse1.loopParseError 0 = true ∧
    (run oEx envParse1).result = RunResult.exitIter 1 true ∧
    RunResult.exitIter 1 true ≠ RunResult.uncaughtError true := by
  refine ⟨rfl, ?_, by decide⟩
  decide

/-- C8 amended: a parse error from the override file during the architect
phase's `create_coder` call propagates uncaught out of `run` (before any
session exists); a parse error during a loop iteration's `create_coder`
call is caught by that iteration's exception handler, which prints the
diagnostic and terminates the process with exit status 1.  Either way the
process terminates, but only the architect-phase path is unhandled. -/
theorem load_config_parse_error_paths (o : Orch) (env : Env) :
    (pyFalsy env.reqContent = false → env.archParseError = true →
      (run o env).result = RunResult.uncaughtError true ∧
      (run o env).archSessions = 0) ∧
    (∀ (k r count : Nat) (o' : Orch) (msgs : List Msg),
      (is_complete o' (env.worlds k)).1 = false →
      env.loopParseError k = true →
      (runLoop env k (r + 1) o' count msgs).result = RunResult.exitIter (k + 1) true ∧
      (runLoop env k (r + 1) o' count msgs).codeSessions = count ∧
      (runLoop env k (r + 1) o' count msgs).msgs =
        msgs ++ (is_complete o' (env.worlds k)).2.2 ++
          [Msg.startingIteration (k + 1), Msg.errorDuringIteration (k + 1)]) := by
  constructor
  · intro hreq hape
    obtain ⟨rs, hrs, hrse⟩ : ∃ s, env.reqContent = some s ∧ s.isEmpty = false := by
      cases h : env.reqContent with
      | none => rw [h] at hreq; simp [pyFalsy] at hreq
      | some s => rw [h] at hreq; exact ⟨s, rfl, hreq⟩
    simp [run, read_prompt_file, hrs, pyFalsy, hrse, hape]
  · intro k r count o' msgs hic hpe
    simp [runLoop, hic, hpe]

theorem load_config_parse_error_paths_witness :
    ((run oEx { envOk with archParseError := true }).result =
        RunResult.uncaughtError true ∧
      (run oEx { envOk with archParseError := true }).archSessions = 0) ∧
    (runLoop envParse1 0 1 oEx 0 []).result = RunResult.exitIter 1 true :=
  ⟨(load_config_parse_error_paths oEx { envOk with archParseError := true }).1
      (by decide) rfl,
   ((load_config_parse_error_paths oEx envParse1).2 0 0 0 oEx []
      (by decide) rfl).1⟩

/-! Noninterference of `commit_prompt_file` (C9).

Helper lemmas showing every operation ignores the stored
`commit_prompt_file` field. -/

lemma is_complete_ignores_commit_prompt (o : Orch) (cp : String) (w : World) :
    is_complete { o with commit_prompt_file := cp } w =
      ((is_complete o w).1,
       { (is_complete o w).2.1 with commit_prompt_file := cp },
       (is_complete o w).2.2) := by
  simp only [is_complete]
  split_ifs <;> rfl

lemma create_coder_ignores_commit_prompt (o : Orch) (cp : String)
    (b : Bool) (p : Option PyDict) (m : String) :
    create_coder { o with commit_prompt_file := cp } b p m = create_coder o b p m := rfl

lemma runLoop_ignores_commit_prompt (env : Env) (cp : String) :
    ∀ (r k count : Nat) (o : Orch) (msgs : List Msg),
      runLoop env k r { o with commit_prompt_file := cp } count msgs =
        runLoop env k r o count msgs := by
  intro r
  induction r with
  | zero => intro k count o msgs; rfl
  | succ n ih =>
    intro k count o msgs
    simp only [runLoop, is_complete_ignores_commit_prompt]
    by_cases h : (is_complete o (env.worlds k)).1
    · simp [h]
    · simp only [h, Bool.false_eq_true, if_false]
      by_cases hp : env.loopParseError k
      · simp [hp]
      · by_cases hr : env.loopRunRaises k
        · simp [hp, hr]
        · simp [hp, hr, ih]

lemma run_ignores_commit_prompt (o : Orch) (cp : String) (env : Env) :
    run { o with commit_prompt_file := cp } env = run o env := by
  simp only [run]
  split_ifs <;> simp [runLoop_ignores_commit_prompt]

/-- C9: the `commit_prompt_file` construction parameter is stored but
never read: two orchestrators built by `initOrch` from identical
arguments except for `commit_prompt_file` have identical observable
behaviour — equal `run` traces on every environment, equal `is_complete`
results (return value, resulting `previous_hash`, messages) on every
world, and equal sessions from `create_coder` on every configuration
state and mode.  (`load_config` and `read_prompt_file` do not read the
orchestrator state at all in this embedding, since the Python methods
touch only their arguments and the constant `base_config`.) -/
theorem commit_prompt_file_noninterference
    (rf cf cp1 cp2 : String) (mi : Nat) (st wt hh : String) :
    (∀ env : Env,
      run (initOrch rf cf cp1 mi st wt hh) env =
        run (initOrch rf cf cp2 mi st wt hh) env) ∧
    (∀ w : World,
      (is_complete (initOrch rf cf cp1 mi st wt hh) w).1 =
        (is_complete (initOrch rf cf cp2 mi st wt hh) w).1 ∧
      (is_complete (initOrch rf cf cp1 mi st wt hh) w).2.1.previous_hash =
        (is_complete (initOrch rf cf cp2 mi st wt hh) w).2.1.previous_hash ∧
      (is_complete (initOrch rf cf cp1 mi st wt hh) w).2.2 =
        (is_complete (initOrch rf cf cp2 mi st wt hh) w).2.2) ∧
    (∀ (b : Bool) (p : Option PyDict) (m : String),
      create_coder (initOrch rf cf cp1 mi st wt hh) b p m =
        create_coder (initOrch rf cf cp2 mi st wt hh) b p m) := by
  have h1 : initOrch rf cf cp1 mi st wt hh =
      { initOrch rf cf cp2 mi st wt hh with commit_prompt_file := cp1 } := rfl
  refine ⟨fun env => ?_, fun w => ?_, fun b p m => ?_⟩
  · rw [h1, run_ignores_commit_prompt]
  · rw [h1, is_complete_ignores_commit_prompt]
    exact ⟨rfl, rfl, rfl⟩
  · rw [h1, create_coder_ignores_commit_prompt]

end AiderScript
